import Mathlib

/-!
Verification of the metrics collection and reporting subsystem
(`metrics.go` of go_kafka_client).

The file shallowly embeds the code: the registry is an association of
names to heap addresses together with a heap of metric objects (Go's
registry maps names to references; handles held by producer code are the
same references, so they stay usable after the registry forgets the
name).  Statistic values are modelled as rationals: every value the code
reads is an `int64` cast to `float64` or a `float64` statistic, and the
claims at stake never depend on floating-point rounding.

The metric primitives and the registry live in the external
`rcrowley/go-metrics` library, not in this repository's source; their
observable contracts are modelled from the spec where needed and marked
`Modelled from the spec:`.  The `Stats` snapshot, the `Close` method and
the reporting goroutine are translated directly from `metrics.go`.
-/

/-- Readable state of a Histogram as observed through its accessors
(`Count`, `Max`, `Min`, `Mean`, `StdDev`, `Sum`, `Variance`).
Modelled from the spec: the Histogram primitive exposes count, min, max,
mean, standard deviation, sum and variance (spec section 3); the
computation lives in the external go-metrics library. -/
structure HistStats where
  count : Int
  max : Int
  min : Int
  mean : ℚ
  stdDev : ℚ
  sum : Int
  variance : ℚ
  deriving DecidableEq

/-- Readable state of a Meter as observed through its accessors
(`Count`, `Rate1`, `Rate5`, `Rate15`, `RateMean`).
Modelled from the spec: the Meter primitive exposes a total count and
1/5/15-minute EWMA rates plus a mean rate (spec section 3); the EWMA
computation lives in the external go-metrics library. -/
structure MeterStats where
  count : Int
  rate1 : ℚ
  rate5 : ℚ
  rate15 : ℚ
  rateMean : ℚ
  deriving DecidableEq

/-- A metric object held in the registry.  The Go registry stores values
of type `interface{}`; the five interfaces `metrics.Counter`, `Gauge`,
`Histogram`, `Meter`, `Timer` are mutually non-overlapping (checked
against the go-metrics interface method sets), so a tagged variant is a
faithful model of the type switch in `Stats`.  `other` stands for any
registered value satisfying none of the five interfaces. -/
inductive Metric where
  | counter (count : Int)
  | gauge (value : Int)
  | histogram (h : HistStats)
  | meter (m : MeterStats)
  | timer (h : HistStats) (m : MeterStats)
  | other
  deriving DecidableEq

/-- A registry: a heap of metric objects (addresses are list indices,
allocation appends) plus the name-to-address association.  Handles held
by producer code are heap addresses; `UnregisterAll` clears only the
name table, so objects stay reachable through handles. -/
structure Registry where
  heap : List Metric
  names : List (String × Nat)
  deriving DecidableEq

/-- Look up the address registered under a name. -/
def lookupName : List (String × Nat) → String → Option Nat
  | [], _ => none
  | (n, a) :: rest, key => if n = key then some a else lookupName rest key

/-- Modelled from the spec: `register(name, factory)` returns the
existing metric if the name is already present, otherwise constructs,
stores and returns a new one (spec section 4.1, "first registration
wins"); implemented in the external go-metrics library
(`GetOrRegister`, used by `NewRegisteredCounter` and friends). -/
def Registry.getOrRegister (r : Registry) (name : String) (m : Metric) :
    Registry × Nat :=
  match lookupName r.names name with
  | some a => (r, a)
  | none => (⟨r.heap ++ [m], r.names ++ [(name, r.heap.length)]⟩, r.heap.length)

/-- Modelled from the spec: `unregisterAll()` atomically empties the
registry; previously handed-out references stay independently usable
(spec section 4.1).  In go-metrics this clears the name-to-metric map;
the metric objects themselves survive through outside references, which
the model keeps in the heap. -/
def Registry.unregisterAll (r : Registry) : Registry :=
  ⟨r.heap, []⟩

/-- Modelled from the spec: `each(visit)` invokes the visitor once per
currently registered metric (spec section 4.1); the enumeration is the
name table paired with the objects the names refer to. -/
def Registry.each (r : Registry) : List (String × Metric) :=
  r.names.filterMap (fun p => (r.heap.get? p.2).map (fun m => (p.1, m)))

/-- Update the heap cell at an address. -/
def heapModify : List Metric → Nat → (Metric → Metric) → List Metric
  | [], _, _ => []
  | x :: xs, 0, f => f x :: xs
  | x :: xs, n + 1, f => x :: heapModify xs n f

/-- Modelled from the spec: `Counter.Inc(delta)` adds the delta to the
counter's total (spec section 3); implemented in the go-metrics library.
A handle is an address; the guard keeps the function total (in Go a
Counter handle cannot address a non-counter). -/
def Registry.incCounterAt (r : Registry) (a : Nat) (d : Int) : Registry :=
  ⟨heapModify r.heap a (fun m =>
      match m with
      | .counter c => .counter (c + d)
      | m => m), r.names⟩

/-- Overwrite the metric object at an address (models mutating the
object through a handle, e.g. `Gauge.Update`). -/
def Registry.setMetricAt (r : Registry) (a : Nat) (m : Metric) : Registry :=
  ⟨heapModify r.heap a (fun _ => m), r.names⟩

/-- The per-kind statistic entries built by the type switch of
`consumerMetrics.Stats` (`metrics.go` lines 107-148), in the order the
code inserts them.  The name's inner map is created empty before the
switch (line 106), so a value matching no case yields no entries. -/
def metricStats : Metric → List (String × ℚ)
  | .counter c => [("count", (c : ℚ))]
  | .gauge v => [("value", (v : ℚ))]
  | .histogram h =>
      [("count", (h.count : ℚ)), ("max", (h.max : ℚ)), ("min", (h.min : ℚ)),
       ("mean", h.mean), ("stdDev", h.stdDev), ("sum", (h.sum : ℚ)),
       ("variance", h.variance)]
  | .meter m =>
      [("count", (m.count : ℚ)), ("rate1", m.rate1), ("rate5", m.rate5),
       ("rate15", m.rate15), ("rateMean", m.rateMean)]
  | .timer h m =>
      [("count", (h.count : ℚ)), ("max", (h.max : ℚ)), ("min", (h.min : ℚ)),
       ("mean", h.mean), ("rate1", m.rate1), ("rate5", m.rate5),
       ("rate15", m.rate15), ("rateMean", m.rateMean), ("stdDev", h.stdDev),
       ("sum", (h.sum : ℚ)), ("variance", h.variance)]
  | .other => []

/-- The snapshot mapping, `map[string]map[string]float64` in the Go
code, as an association list of per-name statistic entry lists. -/
abbrev StatsMap := List (String × List (String × ℚ))

/-- Statistic entries for the metric a registered address refers to
(the `none` branch is unreachable for registries built by the
operations above). -/
def statsAt (r : Registry) (a : Nat) : List (String × ℚ) :=
  match r.heap.get? a with
  | some m => metricStats m
  | none => []

/-- The body of `consumerMetrics.Stats` (`metrics.go` lines 103-152):
`registry.Each` visits every registered metric once, an inner map for
the name is created, and the type switch fills it per kind. -/
def Registry.snapshotStats (r : Registry) : StatsMap :=
  r.names.map (fun p => (p.1, statsAt r p.2))

/-- The `consumerMetrics` receiver state the claims touch: the registry
it owns and whether its ticker has been stopped (`time.Ticker.Stop`).
The named handle fields of the Go struct are ordinary handles (heap
addresses) and are not needed by any claim. -/
structure consumerMetrics where
  registry : Registry
  tickerStopped : Bool
  deriving DecidableEq

/-- `consumerMetrics.Stats` (`metrics.go` lines 103-152) in explicit
state-passing form: the method body only reads the registry (accessor
calls and fresh map construction), so the receiver state it returns is
the one it was given. -/
def consumerMetrics.Stats (m : consumerMetrics) : StatsMap × consumerMetrics :=
  (m.registry.snapshotStats, m)

/-- `consumerMetrics.Close` (`metrics.go` lines 154-157):
`ticker.Stop()` then `registry.UnregisterAll()`. -/
def consumerMetrics.Close (m : consumerMetrics) : consumerMetrics :=
  ⟨m.registry.unregisterAll, true⟩

/-- The statistic keys the spec's table (section 4.2) prescribes per
metric kind, written from the spec's words for comparison with
`metricStats` (the code's switch). -/
def specStatKeys : Metric → List String
  | .counter _ => ["count"]
  | .gauge _ => ["value"]
  | .histogram _ => ["count", "max", "min", "mean", "stdDev", "sum", "variance"]
  | .meter _ => ["count", "rate1", "rate5", "rate15", "rateMean"]
  | .timer _ _ =>
      ["count", "max", "min", "mean", "rate1", "rate5", "rate15", "rateMean",
       "stdDev", "sum", "variance"]
  | .other => []

/-- Outcome of one iteration of the reporting goroutine's loop body. -/
inductive TickResult where
  | emitted (payload : StatsMap)
  | panicked
  deriving DecidableEq

/-- Modelled from the spec: `WriteJSONOnce(registry, writer)` serializes
a point-in-time snapshot of the registry to a structured
name-to-statistic-to-value document (spec sections 4.3 and 6); the JSON
encoding itself lives in the go-metrics library, so the payload is
modelled as that document. -/
def serializeRegistry (m : consumerMetrics) : StatsMap :=
  m.registry.snapshotStats

/-- One iteration of the reporting goroutine (`metrics.go` lines 60-69):
build a buffer, `WriteJSONOnce` the registry snapshot into it, flush;
on a flush error the goroutine calls `panic(err)`, otherwise
`EmitterMetrics.Emit` is called once with the buffer's bytes.
`flushFails` is the result of `writer.Flush()`, which is determined by
the underlying writer (library code). -/
def reportingTick (m : consumerMetrics) (flushFails : Bool) : TickResult :=
  if flushFails then .panicked else .emitted (serializeRegistry m)

/-- The sequence of `Emit` calls one loop iteration performs. -/
def tickEmitCalls (m : consumerMetrics) (flushFails : Bool) : List StatsMap :=
  match reportingTick m flushFails with
  | .emitted p => [p]
  | .panicked => []

/-- Whether producer-side metric mutation survives the tick outcome: by
the Go language semantics, a panic that is not recovered anywhere on a
goroutine's stack terminates the entire program, so every producer
goroutine dies with it. -/
def producersSurvive : TickResult → Bool
  | .emitted _ => true
  | .panicked => false

/-- Discrete state of the reporting scheduler and its ticker channel.
`time.Ticker` delivers ticks on a channel of capacity 1; `Stop`
prevents future deliveries but neither closes nor drains the channel. -/
structure SchedState where
  stopped : Bool
  buffered : Bool
  closedReturned : Bool
  ticksGenerated : Nat
  emits : Nat
  emitsAfterClose : Nat
  deriving DecidableEq

/-- Events of the scheduler model:
* `tickFire` - the runtime delivers a tick into `ticker.C`; enabled only
  while the ticker is running and the capacity-1 buffer is free (Go
  drops a tick when the buffer is full, which is no state change);
* `goroutineRecv` - the goroutine's `for range ticker.C` receives a
  buffered tick and runs the loop body (one `Emit`); `Stop` does not
  close the channel, so this stays enabled for a buffered tick after
  `Close` has returned;
* `closeCall` - `consumerMetrics.Close` runs and returns: it calls
  `ticker.Stop()` and `registry.UnregisterAll()` and performs no
  signalling to, or waiting on, the goroutine. -/
inductive SchedEvent where
  | tickFire
  | goroutineRecv
  | closeCall
  deriving DecidableEq

/-- One step of the scheduler model; `none` when the event is not
enabled in the state. -/
def schedStep (s : SchedState) : SchedEvent → Option SchedState
  | .tickFire =>
      if s.stopped || s.buffered then none
      else some { s with buffered := true, ticksGenerated := s.ticksGenerated + 1 }
  | .goroutineRecv =>
      if s.buffered then
        some { s with buffered := false, emits := s.emits + 1,
                      emitsAfterClose :=
                        s.emitsAfterClose + (if s.closedReturned then 1 else 0) }
      else none
  | .closeCall =>
      if s.closedReturned then none
      else some { s with stopped := true, closedReturned := true }

/-- Run a sequence of scheduler events. -/
def schedRun (s : SchedState) : List SchedEvent → Option SchedState
  | [] => some s
  | e :: es => (schedStep s e).bind (fun s' => schedRun s' es)

/-- State right after `newConsumerMetrics` starts the ticker and the
reporting goroutine. -/
def schedInit : SchedState :=
  ⟨false, false, false, 0, 0, 0⟩

/-- Reading back the cell an update targeted yields the updated value. -/
theorem heapModify_get_self (l : List Metric) (f : Metric → Metric) :
    ∀ i, (heapModify l i f).get? i = (l.get? i).map f := by
  induction l with
  | nil => intro i; cases i <;> rfl
  | cons x xs ih =>
      intro i
      cases i with
      | zero => rfl
      | succ n => simpa [heapModify] using ih n

/-- C1: for every registry state, the snapshot maps each registered
metric name to exactly the statistic keys of its kind: a Counter to
count; a Gauge to value; a Histogram to count, max, min, mean, stdDev,
sum, variance; a Meter to count, rate1, rate5, rate15, rateMean; a Timer
to count, max, min, mean, rate1, rate5, rate15, rateMean, stdDev, sum,
variance - no more and no fewer keys. -/
theorem stats_keys_match_kind (m : consumerMetrics) (n : String) (a : Nat)
    (mt : Metric) (hmem : (n, a) ∈ m.registry.names)
    (hcell : m.registry.heap.get? a = some mt) :
    ∃ s, (n, s) ∈ (consumerMetrics.Stats m).1 ∧
      s.map Prod.fst = specStatKeys mt := by
  refine ⟨statsAt m.registry a, List.mem_map.mpr ⟨(n, a), hmem, rfl⟩, ?_⟩
  unfold statsAt
  rw [hcell]
  cases mt <;> rfl

/-- Concrete registry holding one Timer, used to instantiate C1. -/
def demoCM : consumerMetrics :=
  ⟨⟨[.timer ⟨3, 9, 1, 4, 2, 12, 4⟩ ⟨3, 1, 1, 1, 2⟩],
    [("FetchDuration-c1", 0)]⟩, false⟩

/-- Witness for C1 at a registry holding one Timer. -/
theorem stats_keys_match_kind_witness :
    ∃ s, ("FetchDuration-c1", s) ∈ (consumerMetrics.Stats demoCM).1 ∧
      s.map Prod.fst = specStatKeys (.timer ⟨3, 9, 1, 4, 2, 12, 4⟩ ⟨3, 1, 1, 1, 2⟩) :=
  stats_keys_match_kind demoCM "FetchDuration-c1" 0
    (.timer ⟨3, 9, 1, 4, 2, 12, 4⟩ ⟨3, 1, 1, 1, 2⟩) (by decide) (by decide)

/-- A fresh registry with one Counter registered under "X" and
incremented five times with delta 1. -/
def counterXState : consumerMetrics :=
  ⟨(((((((⟨[], []⟩ : Registry).getOrRegister "X" (.counter 0)).1.incCounterAt
      0 1).incCounterAt 0 1).incCounterAt 0 1).incCounterAt 0 1).incCounterAt 0 1),
    false⟩

/-- C2: for a freshly created registry holding one Counter registered
under "X" that has been incremented exactly 5 times and no other
metrics, the snapshot equals the mapping X -> (count -> 5). -/
theorem counter_x_snapshot :
    (consumerMetrics.Stats counterXState).1 = [("X", [("count", (5 : ℚ))])] := by
  decide

/-- C3: after Close returns, the registry is empty - Each visits no
metrics and Stats returns an empty mapping - while metric handles
obtained before the call remain independently readable and writable. -/
theorem close_empties_registry_keeps_handles (m : consumerMetrics) (a : Nat)
    (mt : Metric) (c d : Int) (hcell : m.registry.heap.get? a = some mt) :
    (consumerMetrics.Close m).registry.each = [] ∧
    (consumerMetrics.Stats (consumerMetrics.Close m)).1 = [] ∧
    (consumerMetrics.Close m).registry.heap.get? a = some mt ∧
    ((consumerMetrics.Close m).registry.setMetricAt a (.counter c)).heap.get? a
        = some (.counter c) ∧
    (((consumerMetrics.Close m).registry.setMetricAt a
        (.counter c)).incCounterAt a d).heap.get? a = some (.counter (c + d)) := by
  refine ⟨rfl, rfl, hcell, ?_, ?_⟩
  · show (heapModify m.registry.heap a _).get? a = _
    rw [heapModify_get_self, hcell]
    rfl
  · show (heapModify (heapModify m.registry.heap a _) a _).get? a = _
    rw [heapModify_get_self, heapModify_get_self, hcell]
    rfl

/-- Concrete registry holding one Counter, used to instantiate C3. -/
def demoCloseCM : consumerMetrics :=
  ⟨⟨[.counter 7], [("WMsActiveWorkers-c1", 0)]⟩, false⟩

/-- Witness for C3: close a registry holding one Counter, then keep
using the handle. -/
theorem close_empties_registry_keeps_handles_witness :
    (consumerMetrics.Close demoCloseCM).registry.each = [] ∧
    (consumerMetrics.Stats (consumerMetrics.Close demoCloseCM)).1 = [] ∧
    (consumerMetrics.Close demoCloseCM).registry.heap.get? 0 = some (.counter 7) ∧
    ((consumerMetrics.Close demoCloseCM).registry.setMetricAt 0
        (.counter 2)).heap.get? 0 = some (.counter 2) ∧
    (((consumerMetrics.Close demoCloseCM).registry.setMetricAt 0
        (.counter 2)).incCounterAt 0 3).heap.get? 0 = some (.counter (2 + 3)) :=
  close_empties_registry_keeps_handles demoCloseCM 0 (.counter 7) 2 3 (by decide)

/-- C4: the claim says a serialization failure during a tick stops only
the reporting task and never terminates producer-side metric mutation.
The code instead calls panic(err) inside the reporting goroutine
(`metrics.go` line 65); an unrecovered panic in a goroutine terminates
the whole Go process, so producer-side mutation dies with it. -/
theorem serialization_failure_fatal_to_process (m : consumerMetrics) :
    reportingTick m true = .panicked ∧
    producersSurvive (reportingTick m true) = false :=
  ⟨rfl, rfl⟩

/-- C5: the claim says Close waits for the current tick and the Emitter
receives zero emit calls after Close has returned.  In the code Close
only calls ticker.Stop() and UnregisterAll with no signalling to or
waiting on the goroutine, and time.Ticker.Stop neither closes nor drains
the channel, so a tick buffered before Stop is still processed after
Close returns: the run tick-fire, close-call, goroutine-receive ends
with one Emit issued after Close returned. -/
theorem emit_after_close_returns :
    schedRun schedInit [.tickFire, .closeCall, .goroutineRecv] =
      some ⟨true, false, true, 1, 1, 1⟩ := by
  decide

/-- C6: on every tick, the loop body takes one snapshot of the registry,
serializes it to a name-to-statistic-to-value document, and passes it in
exactly one Emit call. -/
theorem one_emit_per_tick (m : consumerMetrics) :
    tickEmitCalls m false = [serializeRegistry m] :=
  rfl

/-- C7: registering a metric under a name already present in the
registry returns a handle to the same underlying metric as the first
registration rather than replacing it; since both handles are the same
reference, a mutation through either is observed by reads through the
other. -/
theorem reregister_returns_existing (r : Registry) (n : String) (a : Nat)
    (m₂ : Metric) (c d : Int) (hname : lookupName r.names n = some a)
    (hcell : r.heap.get? a = some (.counter c)) :
    (r.getOrRegister n m₂).2 = a ∧ (r.getOrRegister n m₂).1 = r ∧
    ((r.getOrRegister n m₂).1.incCounterAt a d).heap.get? a
        = some (.counter (c + d)) := by
  unfold Registry.getOrRegister
  rw [hname]
  refine ⟨rfl, rfl, ?_⟩
  show (heapModify r.heap a _).get? a = _
  rw [heapModify_get_self, hcell]
  rfl

/-- Concrete registry holding one Counter under an already-registered
name, used to instantiate C7. -/
def demoReg : Registry :=
  ⟨[.counter 4], [("WMsPendingTasks-c1", 0)]⟩

/-- Witness for C7: re-register an existing name and mutate through the
shared handle. -/
theorem reregister_returns_existing_witness :
    (demoReg.getOrRegister "WMsPendingTasks-c1" (.counter 0)).2 = 0 ∧
    (demoReg.getOrRegister "WMsPendingTasks-c1" (.counter 0)).1 = demoReg ∧
    ((demoReg.getOrRegister "WMsPendingTasks-c1"
        (.counter 0)).1.incCounterAt 0 2).heap.get? 0 = some (.counter (4 + 2)) :=
  reregister_returns_existing demoReg "WMsPendingTasks-c1" 0 (.counter 0) 4 2
    (by decide) (by decide)

/-- C8: Stats is a pure read: it leaves the receiver state (registry
contents and every metric's internal state) unchanged, and two
consecutive calls with no interleaved mutation return equal mappings. -/
theorem stats_pure_read (m : consumerMetrics) :
    (consumerMetrics.Stats m).2 = m ∧
    (consumerMetrics.Stats ((consumerMetrics.Stats m).2)).1
        = (consumerMetrics.Stats m).1 :=
  ⟨rfl, rfl⟩

/-- C9: a registered value whose kind is none of the five metric
interfaces still appears in the snapshot under its name, mapped to an
empty statistics mapping (the inner map is created before the type
switch, and no case of the switch matches). -/
theorem unknown_kind_empty_stats (m : consumerMetrics) (n : String) (a : Nat)
    (hmem : (n, a) ∈ m.registry.names)
    (hcell : m.registry.heap.get? a = some .other) :
    (n, ([] : List (String × ℚ))) ∈ (consumerMetrics.Stats m).1 :=
  List.mem_map.mpr ⟨(n, a), hmem, by
    show (n, statsAt m.registry a) = (n, ([] : List (String × ℚ)))
    unfold statsAt
    rw [hcell]
    rfl⟩

/-- Concrete registry holding one value of unknown kind, used to
instantiate C9. -/
def demoOtherCM : consumerMetrics :=
  ⟨⟨[.other], [("Unknown-c1", 0)]⟩, false⟩

/-- Witness for C9 at a registry holding one unknown-kind value. -/
theorem unknown_kind_empty_stats_witness :
    ("Unknown-c1", ([] : List (String × ℚ))) ∈
      (consumerMetrics.Stats demoOtherCM).1 :=
  unknown_kind_empty_stats demoOtherCM "Unknown-c1" 0 (by decide) (by decide)

/-- C10: a second Close after a first is safe and idempotent: stopping a
stopped ticker and clearing an empty registry change nothing, so the
state after the second call equals the state after the first (ticker
stopped, registry empty, snapshot empty). -/
theorem close_idempotent (m : consumerMetrics) :
    consumerMetrics.Close (consumerMetrics.Close m) = consumerMetrics.Close m :=
  rfl
